import Mathlib

/-!
Verification of the resilient orchestration and citation-normalization core of
a Gemini File Search RAG gateway (`src/main.py`).  Python functions are
shallowly embedded as Lean functions: remote backend calls are modelled as
explicit inputs (result values and status streams), and observable effects
(backend calls, sleeps, temp-file lifecycle, upload submissions) are recorded
in event traces so that attempt counts, delays and cleanup can be stated.
-/

/-- Result of a remote long-running operation fetch (`operation.name`, `operation.done`). -/
structure Operation where
  name : String
  done : Bool
deriving DecidableEq, Repr

/-- HTTP error raised at the gateway boundary (`HTTPException(status_code, detail)`). -/
structure HttpError where
  status : Nat
  detail : String
deriving DecidableEq, Repr

/-- Python exception values that can cross the `try` blocks of `upload_file`:
`HTTPException` (which in Python subclasses `Exception`) or any other
exception, carrying its message. -/
inductive PyExc where
  | http (status : Nat) (detail : String)
  | generic (msg : String)
deriving DecidableEq, Repr

/-- Python `str(e)`: for a Starlette `HTTPException` this is
`f"{self.status_code}: {self.detail}"`; for a plain exception its message. -/
def pyExcStr : PyExc → String
  | PyExc.http status detail => toString status ++ ": " ++ detail
  | PyExc.generic msg => msg

/-- Observable events of a request: backend query calls
(`client.models.generate_content`), sleeps (`asyncio.sleep`), operation status
fetches (`client.operations.get`), temp-file lifecycle
(`tempfile.NamedTemporaryFile` / `os.unlink`), and the upload submission call
recording the store name passed to the backend. -/
inductive Ev where
  | callBackend (i : Nat)
  | sleepEv (n : Nat)
  | fetchOp (i : Nat)
  | createTmp (p : String)
  | deleteTmp (p : String)
  | submitUpload (store : String)
deriving DecidableEq, Repr

/-- Python substring test `needle in hay` (codepoint-wise containment). -/
def strContains (hay needle : String) : Bool :=
  decide (needle.toList <:+: hay.toList)

/-- Python `s.lower()` (ASCII case folding, which covers the tokens involved). -/
def lowerStr (s : String) : String := String.mk (s.toList.map Char.toLower)

/-- Python `s.startswith(pre)`. -/
def startsWithPy (s pre : String) : Bool :=
  decide (pre.toList <+: s.toList)

/-- Overload classification from `src/main.py` line 320:
`"503" in error_str or "UNAVAILABLE" in error_str or "overloaded" in error_str.lower()`. -/
def isOverloadError (errorStr : String) : Bool :=
  strContains errorStr "503" || strContains errorStr "UNAVAILABLE" ||
    strContains (lowerStr errorStr) "overloaded"

/-- Modelled from the spec: the transient-overload class as the spec words it —
status code 503, "UNAVAILABLE", or "overloaded" token, each of the three
tokens matched case-insensitively.  Stated here only to compare with
`isOverloadError`, the classification the code actually performs. -/
def specTransientOverload (errorStr : String) : Bool :=
  strContains (lowerStr errorStr) "503" ||
    strContains (lowerStr errorStr) "unavailable" ||
    strContains (lowerStr errorStr) "overloaded"

/-- Retry loop of `query_documents` (src/main.py lines 229-338).  The backend is
modelled as a function from the attempt index to that attempt's outcome
(error text or answer).  `attempts` enumerates the remaining values of the
Python `for attempt in range(max_retries)` loop; `delay` is the current
`retry_delay`.  Returns the endpoint outcome plus the trace of backend calls
and sleeps. -/
def queryLoop {α : Type} (backend : Nat → Except String α) (maxRetries : Nat) :
    List Nat → Nat → Except HttpError α × List Ev
  | [], _ => (Except.error ⟨500, "Query failed after multiple retries"⟩, [])
  | attempt :: rest, delay =>
    match backend attempt with
    | Except.ok a => (Except.ok a, [Ev.callBackend attempt])
    | Except.error e =>
      if isOverloadError e then
        if attempt < maxRetries - 1 then
          let r := queryLoop backend maxRetries rest (delay * 2)
          (r.1, Ev.callBackend attempt :: Ev.sleepEv delay :: r.2)
        else
          (Except.error ⟨503,
            "The AI model is currently overloaded. Please try again in a few moments."⟩,
            [Ev.callBackend attempt])
      else
        (Except.error ⟨500, "Query failed: " ++ e⟩, [Ev.callBackend attempt])

/-- Endpoint `POST /api/query`: `max_retries = 3`, attempts `range(3) = [0, 1, 2]`,
initial `retry_delay = 2`. -/
def queryDocuments {α : Type} (backend : Nat → Except String α) :
    Except HttpError α × List Ev :=
  queryLoop backend 3 [0, 1, 2] 2

/-- Polling loop shared by `upload_file` (src/main.py lines 197-203) and
`wait_for_operation` (lines 74-80): `while not operation.done and attempt <
max_attempts: await asyncio.sleep(5); operation = client.operations.get(...);
attempt += 1`.  `fetch i` is the operation state returned by the `i`-th status
fetch; the final argument is `max_attempts - attempt`, the remaining budget. -/
def pollLoopAux (fetch : Nat → Operation) : Operation → Nat → Nat → Operation × List Ev
  | op, _, 0 => (op, [])
  | op, attempt, remaining + 1 =>
    if op.done then (op, [])
    else
      let r := pollLoopAux fetch (fetch (attempt + 1)) (attempt + 1) remaining
      (r.1, Ev.sleepEv 5 :: Ev.fetchOp (attempt + 1) :: r.2)

/-- Poller: after the loop, `if not operation.done: raise HTTPException(408, ...)`,
else the final operation is returned (src/main.py lines 197-206; the same
logic is duplicated at lines 74-85 with detail "Operation timed out"). -/
def pollUntilDone (fetch : Nat → Operation) (op0 : Operation) (maxAttempts : Nat) :
    Except HttpError Operation × List Ev :=
  let r := pollLoopAux fetch op0 0 maxAttempts
  if r.1.done then (Except.ok r.1, r.2)
  else (Except.error ⟨408, "Upload operation timed out"⟩, r.2)

/-- Expected trace of a poll run that never observes `done`: starting at attempt
index `a`, each round is a 5-unit sleep followed by a status fetch. -/
def pollTrace : Nat → Nat → List Ev
  | _, 0 => []
  | a, r + 1 => Ev.sleepEv 5 :: Ev.fetchOp (a + 1) :: pollTrace (a + 1) r

/-- Success payload of `upload_file` (the dict returned at src/main.py lines 208-215). -/
structure UploadSuccess where
  message : String
  opName : String
  opDone : Bool
deriving DecidableEq, Repr

/-- Outcome of the temp-file staging block (src/main.py lines 162-165).  The
`with tempfile.NamedTemporaryFile(delete=False)` block may fail before the
temp file exists, may fail after creating it (`await file.read()` or
`tmp_file.write` raising, before `tmp_file_path` is recorded), or may complete
with the path recorded. -/
inductive StageResult where
  | failBeforeCreate (msg : String)
  | failAfterCreate (path : String) (msg : String)
  | staged (path : String)
deriving DecidableEq, Repr

/-- Endpoint `POST /api/files/upload` (src/main.py lines 150-223).  `submit` is
the outcome of `upload_to_file_search_store` — the store name is passed to the
backend exactly as received in the form field — and `fetch` is the stream of
operation status fetches.  The inner `try ... finally` deletes the temp file;
the outer `except Exception` wraps any exception reaching it — including the
`HTTPException(408)` raised on poll timeout, since `HTTPException` subclasses
`Exception` — into a 500 response.  A staging failure after temp-file creation
propagates to the outer handler without entering the inner `try`, so no
cleanup runs on that path. -/
def uploadFile (storeName : String) (stage : StageResult)
    (submit : Except String Operation) (fetch : Nat → Operation) :
    Except HttpError UploadSuccess × List Ev :=
  match stage with
  | StageResult.failBeforeCreate e =>
    (Except.error ⟨500, "Failed to upload file: " ++ e⟩, [])
  | StageResult.failAfterCreate p e =>
    (Except.error ⟨500, "Failed to upload file: " ++ e⟩, [Ev.createTmp p])
  | StageResult.staged p =>
    let inner : Except PyExc UploadSuccess × List Ev :=
      match submit with
      | Except.error e => (Except.error (PyExc.generic e), [Ev.submitUpload storeName])
      | Except.ok op0 =>
        let r := pollLoopAux fetch op0 0 60
        if r.1.done then
          (Except.ok ⟨"File uploaded and indexed successfully", r.1.name, r.1.done⟩,
            Ev.submitUpload storeName :: r.2)
        else
          (Except.error (PyExc.http 408 "Upload operation timed out"),
            Ev.submitUpload storeName :: r.2)
    let evs := Ev.createTmp p :: (inner.2 ++ [Ev.deleteTmp p])
    match inner.1 with
    | Except.ok s => (Except.ok s, evs)
    | Except.error exc =>
      (Except.error ⟨500, "Failed to upload file: " ++ pyExcStr exc⟩, evs)

/-- Store-id normalization used by `delete_store` (src/main.py line 143) and
`list_documents` (line 345):
`f"fileSearchStores/{store_id}" if not store_id.startswith("fileSearchStores/") else store_id`. -/
def storeNameOf (storeId : String) : String :=
  if startsWithPy storeId "fileSearchStores/" then storeId
  else "fileSearchStores/" ++ storeId

/-- JSON-like Python values as built by the citation-extraction dicts. -/
inductive PyVal where
  | null
  | str (s : String)
  | int (n : Int)
  | list (xs : List PyVal)
  | dict (fields : List (String × PyVal))
deriving Repr

/-- Optional string rendered into a dict value (Python `None` becomes JSON null). -/
def optStr : Option String → PyVal
  | none => PyVal.null
  | some s => PyVal.str s

/-- Optional integer rendered into a dict value. -/
def optInt : Option Int → PyVal
  | none => PyVal.null
  | some n => PyVal.int n

/-- Raw `web` sub-object of a grounding chunk. -/
structure RawWeb where
  uri : Option String
  title : Option String
deriving DecidableEq, Repr

/-- Raw `retrieved_context` sub-object of a grounding chunk. -/
structure RawRetrievedContext where
  uri : Option String
  title : Option String
  text : Option String
deriving DecidableEq, Repr

/-- Raw grounding chunk: a pydantic object whose `web` and `retrieved_context`
attributes are `None` or populated sub-objects. -/
structure RawChunk where
  web : Option RawWeb
  retrieved_context : Option RawRetrievedContext
deriving DecidableEq, Repr

/-- Raw `segment` sub-object of a grounding support. -/
structure RawSegment where
  start_index : Option Int
  end_index : Option Int
  text : Option String
deriving DecidableEq, Repr

/-- Raw grounding support.  Confidence scores are floating-point in the API;
only their presence, emptiness and pass-through matter here, so score values
are modelled by integers. -/
structure RawSupport where
  segment : Option RawSegment
  grounding_chunk_indices : Option (List Int)
  confidence_scores : Option (List Int)
deriving DecidableEq, Repr

/-- Raw grounding-metadata container. -/
structure RawGroundingMetadata where
  grounding_chunks : Option (List RawChunk)
  grounding_supports : Option (List RawSupport)
deriving DecidableEq, Repr

/-- First response candidate: `grounding_metadata` is `None` or a container. -/
structure RawCandidate where
  grounding_metadata : Option RawGroundingMetadata
deriving DecidableEq, Repr

/-- Per-chunk dict `chunk_data` built at src/main.py lines 273-284: a `web`
entry when `chunk.web` is populated, then a `retrieved_context` entry when
populated, each inner dict carrying all its sub-keys with `None` values where
the raw sub-field is absent. -/
def chunkData (c : RawChunk) : List (String × PyVal) :=
  (match c.web with
   | some w => [("web", PyVal.dict [("uri", optStr w.uri), ("title", optStr w.title)])]
   | none => []) ++
  (match c.retrieved_context with
   | some rc =>
     [("retrieved_context", PyVal.dict
        [("uri", optStr rc.uri), ("title", optStr rc.title), ("text", optStr rc.text)])]
   | none => [])

/-- Per-support dict `support_data` built at src/main.py lines 292-302; the
list-valued fields are added only when present and non-empty (Python
truthiness of a list). -/
def supportData (s : RawSupport) : List (String × PyVal) :=
  (match s.segment with
   | some seg => [("segment", PyVal.dict
       [("start_index", optInt seg.start_index), ("end_index", optInt seg.end_index),
        ("text", optStr seg.text)])]
   | none => []) ++
  (match s.grounding_chunk_indices with
   | some l =>
     if l.isEmpty then [] else [("grounding_chunk_indices", PyVal.list (l.map PyVal.int))]
   | none => []) ++
  (match s.confidence_scores with
   | some l =>
     if l.isEmpty then [] else [("confidence_scores", PyVal.list (l.map PyVal.int))]
   | none => [])

/-- Normalized `grounding_chunks` sequence (src/main.py lines 266-286): starts
empty; when the raw chunk list is present and non-empty (Python truthiness),
each chunk's `chunk_data` is appended only if non-empty. -/
def normChunksOut (gm : RawGroundingMetadata) : List PyVal :=
  match gm.grounding_chunks with
  | none => []
  | some cl =>
    if cl.isEmpty then []
    else ((cl.map chunkData).filter (fun d => !d.isEmpty)).map PyVal.dict

/-- Normalized `grounding_supports` field (src/main.py lines 289-304): the key
is created only when the raw `grounding_supports` attribute is present and
non-empty; each support's `support_data` is appended only if non-empty. -/
def normSupportsField (gm : RawGroundingMetadata) : List (String × PyVal) :=
  match gm.grounding_supports with
  | none => []
  | some sl =>
    if sl.isEmpty then []
    else [("grounding_supports",
      PyVal.list (((sl.map supportData).filter (fun d => !d.isEmpty)).map PyVal.dict))]

/-- Citation normalizer (src/main.py lines 261-304): `None` when the candidate
has no grounding-metadata container; otherwise a dict with the
`grounding_chunks` key (always present) followed by the conditional
`grounding_supports` key. -/
def normalizeCandidate (cand : RawCandidate) : Option PyVal :=
  match cand.grounding_metadata with
  | none => none
  | some gm =>
    some (PyVal.dict (("grounding_chunks", PyVal.list (normChunksOut gm)) ::
      normSupportsField gm))

/-- Raw chunk has at least one populated source field. -/
def chunkPopulated (c : RawChunk) : Bool :=
  c.web.isSome || c.retrieved_context.isSome

/-- Raw support has at least one populated field (list fields count only when
present and non-empty, matching Python truthiness). -/
def supportPopulated (s : RawSupport) : Bool :=
  s.segment.isSome ||
    (match s.grounding_chunk_indices with
     | some l => !l.isEmpty
     | none => false) ||
    (match s.confidence_scores with
     | some l => !l.isEmpty
     | none => false)

/-- Keys of the normalized output dict; empty when the value is absent or not a dict. -/
def dictKeys : Option PyVal → List String
  | some (PyVal.dict fs) => fs.map Prod.fst
  | _ => []

/-- C2 counterexample: the error text "Service Unavailable" matches the
"UNAVAILABLE" token case-insensitively, so the claim classifies it as
transient-overload, but the code's classification — which matches
"UNAVAILABLE" only in upper case — does not, and the retry controller treats
it as a generic failure (a single backend call, no retry). -/
theorem overload_classification_cex :
    isOverloadError "Service Unavailable" = false ∧
    specTransientOverload "Service Unavailable" = true ∧
    (queryDocuments (fun _ => (Except.error "Service Unavailable" : Except String Nat))).2 =
      [Ev.callBackend 0] := by
  decide

/-- C2 (amended): a query failure is classified as transient-overload exactly
when its error text contains "503" (case-irrelevant, all digits) or the
token "UNAVAILABLE" matched case-sensitively (upper case only) or the token
"overloaded" matched case-insensitively (against the lowercased error text). -/
theorem overload_classification (s : String) :
    isOverloadError s = true ↔
      ("503".toList <:+: s.toList ∨ "UNAVAILABLE".toList <:+: s.toList ∨
        "overloaded".toList <:+: (lowerStr s).toList) := by
  simp [isOverloadError, strContains, or_assoc]

/-- C3: when the backend fails on every attempt with a transient-overload
error, `query_documents` invokes the backend exactly 3 times with
inter-attempt delays of 2 then 4 time units (no delay after the final
attempt) and fails with HTTP 503 carrying the fixed "try again" message,
not the raw backend error text. -/
theorem query_overload_exhaustion {α : Type} (backend : Nat → Except String α)
    (e0 e1 e2 : String)
    (h0 : backend 0 = Except.error e0) (h1 : backend 1 = Except.error e1)
    (h2 : backend 2 = Except.error e2)
    (o0 : isOverloadError e0 = true) (o1 : isOverloadError e1 = true)
    (o2 : isOverloadError e2 = true) :
    (queryDocuments backend).1 = Except.error ⟨503,
      "The AI model is currently overloaded. Please try again in a few moments."⟩ ∧
    (queryDocuments backend).2 =
      [Ev.callBackend 0, Ev.sleepEv 2, Ev.callBackend 1, Ev.sleepEv 4, Ev.callBackend 2] := by
  simp [queryDocuments, queryLoop, h0, h1, h2, o0, o1, o2]

/-- Witness for C3: a backend that always fails with "503" is called three
times with delays 2 and 4 and the endpoint fails 503 with the fixed message. -/
theorem query_overload_exhaustion_witness :
    isOverloadError "503" = true ∧
    (queryDocuments (fun _ => (Except.error "503" : Except String Nat))).1 =
      Except.error ⟨503,
        "The AI model is currently overloaded. Please try again in a few moments."⟩ ∧
    (queryDocuments (fun _ => (Except.error "503" : Except String Nat))).2 =
      [Ev.callBackend 0, Ev.sleepEv 2, Ev.callBackend 1, Ev.sleepEv 4, Ev.callBackend 2] :=
  ⟨by decide,
   (query_overload_exhaustion _ "503" "503" "503" rfl rfl rfl
      (by decide) (by decide) (by decide)).1,
   (query_overload_exhaustion _ "503" "503" "503" rfl rfl rfl
      (by decide) (by decide) (by decide)).2⟩

/-- C4: when the first backend failure does not match the overload signal,
`query_documents` makes exactly one backend call and fails immediately with
HTTP 500 carrying the backend-provided detail; no retry occurs. -/
theorem query_non_overload_immediate {α : Type} (backend : Nat → Except String α)
    (e : String) (h : backend 0 = Except.error e) (ho : isOverloadError e = false) :
    (queryDocuments backend).1 = Except.error ⟨500, "Query failed: " ++ e⟩ ∧
    (queryDocuments backend).2 = [Ev.callBackend 0] := by
  simp [queryDocuments, queryLoop, h, ho]

/-- Witness for C4: a backend failing with "boom" on the first attempt yields
an immediate 500 with the backend detail after a single call. -/
theorem query_non_overload_immediate_witness :
    isOverloadError "boom" = false ∧
    (queryDocuments (fun _ => (Except.error "boom" : Except String Nat))).1 =
      Except.error ⟨500, "Query failed: " ++ "boom"⟩ ∧
    (queryDocuments (fun _ => (Except.error "boom" : Except String Nat))).2 =
      [Ev.callBackend 0] :=
  ⟨by decide,
   (query_non_overload_immediate _ "boom" rfl (by decide)).1,
   (query_non_overload_immediate _ "boom" rfl (by decide)).2⟩

/-- Event is an operation status fetch. -/
def isFetchEv : Ev → Bool
  | Ev.fetchOp _ => true
  | _ => false

/-- Poll loop on a stream that never reports `done` consumes its whole budget:
the final operation is still not done and the trace is `remaining` rounds of a
5-unit sleep followed by a status fetch. -/
theorem pollLoopAux_never_done (fetch : Nat → Operation)
    (hf : ∀ i, (fetch i).done = false) :
    ∀ (r a : Nat) (op : Operation), op.done = false →
      (pollLoopAux fetch op a r).1.done = false ∧
      (pollLoopAux fetch op a r).2 = pollTrace a r := by
  intro r
  induction r with
  | zero => intro a op h; simp [pollLoopAux, pollTrace, h]
  | succ n ih =>
    intro a op h
    have hr := ih (a + 1) (fetch (a + 1)) (hf (a + 1))
    simp [pollLoopAux, pollTrace, h, hr.1, hr.2]

/-- Number of fetch events in a never-done poll trace equals the round count. -/
theorem pollTrace_count (a r : Nat) :
    (pollTrace a r).countP isFetchEv = r := by
  induction r generalizing a with
  | zero => simp [pollTrace]
  | succ n ih => simp [pollTrace, List.countP_cons, isFetchEv, ih]

/-- C5: for an operation whose `done` flag never becomes true, the poller
performs exactly 60 status fetches, each preceded by a 5-unit sleep, and then
fails with the 408 timeout error; under these hypotheses it never returns a
not-done operation as a success. -/
theorem poll_timeout_after_60 (fetch : Nat → Operation) (op0 : Operation)
    (h0 : op0.done = false) (hf : ∀ i, (fetch i).done = false) :
    (pollUntilDone fetch op0 60).1 =
      Except.error ⟨408, "Upload operation timed out"⟩ ∧
    (pollUntilDone fetch op0 60).2 = pollTrace 0 60 ∧
    ((pollUntilDone fetch op0 60).2.countP isFetchEv) = 60 := by
  have h := pollLoopAux_never_done fetch hf 60 0 op0 h0
  simp [pollUntilDone, h.1, h.2, pollTrace_count]

/-- Witness for C5: a concrete stream that never reports done yields the 408
error, the 60-round sleep-then-fetch trace, and 60 fetches. -/
theorem poll_timeout_after_60_witness :
    (Operation.mk "operations/w" false).done = false ∧
    (pollUntilDone (fun _ => ⟨"operations/w", false⟩) ⟨"operations/w", false⟩ 60).1 =
      Except.error ⟨408, "Upload operation timed out"⟩ ∧
    (pollUntilDone (fun _ => ⟨"operations/w", false⟩) ⟨"operations/w", false⟩ 60).2 =
      pollTrace 0 60 ∧
    ((pollUntilDone (fun _ => ⟨"operations/w", false⟩) ⟨"operations/w", false⟩ 60).2.countP
      isFetchEv) = 60 :=
  ⟨rfl,
   (poll_timeout_after_60 _ _ rfl (fun _ => rfl)).1,
   (poll_timeout_after_60 _ _ rfl (fun _ => rfl)).2.1,
   (poll_timeout_after_60 _ _ rfl (fun _ => rfl)).2.2⟩

/-- C1: an upload whose indexing operation is still not done after the poll
budget is exhausted does NOT fail with HTTP 408.  The inner loop raises
`HTTPException(408, "Upload operation timed out")` (line 206), but the outer
`except Exception` at line 222 also catches `HTTPException` (a subclass of
`Exception`) and re-raises it as HTTP 500 wrapping `str(e)`; the claim and
line 206 intend 408. -/
theorem upload_timeout_returns_500 :
    (uploadFile "fileSearchStores/s1" (StageResult.staged "/tmp/f1")
        (Except.ok ⟨"operations/op1", false⟩) (fun _ => ⟨"operations/op1", false⟩)).1 =
      Except.error ⟨500, "Failed to upload file: 408: Upload operation timed out"⟩ := by
  rfl

/-- Poll-loop traces contain only sleep and fetch events, in particular no
upload submission and no temp-file events. -/
theorem pollLoopAux_events (fetch : Nat → Operation) :
    ∀ (r a : Nat) (op : Operation) (e : Ev), e ∈ (pollLoopAux fetch op a r).2 →
      e = Ev.sleepEv 5 ∨ ∃ i, e = Ev.fetchOp i := by
  intro r
  induction r with
  | zero => intro a op e h; simp [pollLoopAux] at h
  | succ n ih =>
    intro a op e h
    by_cases hd : op.done
    · simp [pollLoopAux, hd] at h
    · simp [pollLoopAux, hd] at h
      rcases h with h | h | h
      · exact Or.inl h
      · exact Or.inr ⟨a + 1, h⟩
      · exact ih (a + 1) (fetch (a + 1)) e h

/-- C10 counterexample: when staging fails after the temp file has been
created but before the path is recorded (`await file.read()` or
`tmp_file.write` raising inside the `with` block, lines 162-165), the
exception propagates to the outer `except` without entering the inner
`try ... finally`, so the created temp file is never deleted and the request
completes with HTTP 500. -/
theorem upload_cleanup_cex :
    Ev.createTmp "/tmp/leak" ∈
      (uploadFile "s" (StageResult.failAfterCreate "/tmp/leak" "client disconnected")
        (Except.ok ⟨"op", true⟩) (fun _ => ⟨"op", true⟩)).2 ∧
    Ev.deleteTmp "/tmp/leak" ∉
      (uploadFile "s" (StageResult.failAfterCreate "/tmp/leak" "client disconnected")
        (Except.ok ⟨"op", true⟩) (fun _ => ⟨"op", true⟩)).2 ∧
    (uploadFile "s" (StageResult.failAfterCreate "/tmp/leak" "client disconnected")
        (Except.ok ⟨"op", true⟩) (fun _ => ⟨"op", true⟩)).1 =
      Except.error ⟨500, "Failed to upload file: client disconnected"⟩ :=
  ⟨by decide, by decide, rfl⟩

/-- C10 (amended): for every upload request whose staging block completed (the
temp path was recorded), the temp file creation is the first event of the
request and its deletion occurs before the request completes, regardless of
submission failure, poll timeout or success; when staging fails after the
file's creation, the file is not deleted. -/
theorem upload_cleanup (storeName p : String) (stage : StageResult)
    (submit : Except String Operation) (fetch : Nat → Operation)
    (h : stage = StageResult.staged p) :
    ((uploadFile storeName stage submit fetch).2.head? = some (Ev.createTmp p) ∧
      Ev.deleteTmp p ∈ (uploadFile storeName stage submit fetch).2) ∧
    (∀ (q msg : String),
      Ev.deleteTmp q ∉
        (uploadFile storeName (StageResult.failAfterCreate q msg) submit fetch).2) := by
  subst h
  constructor
  · cases submit with
    | error e => simp [uploadFile]
    | ok op0 =>
      by_cases hd : (pollLoopAux fetch op0 0 60).1.done <;>
        simp [uploadFile, hd]
  · intro q msg
    cases submit <;> simp [uploadFile]

/-- Witness for C10: a staged upload whose operation never completes (the 408
timeout wrapped into a 500) still creates the temp file first and deletes it. -/
theorem upload_cleanup_witness :
    ((uploadFile "s2" (StageResult.staged "/tmp/w2")
        (Except.ok ⟨"op2", false⟩) (fun _ => ⟨"op2", false⟩)).2.head? =
          some (Ev.createTmp "/tmp/w2") ∧
      Ev.deleteTmp "/tmp/w2" ∈ (uploadFile "s2" (StageResult.staged "/tmp/w2")
        (Except.ok ⟨"op2", false⟩) (fun _ => ⟨"op2", false⟩)).2) ∧
    (∀ (q msg : String),
      Ev.deleteTmp q ∉
        (uploadFile "s2" (StageResult.failAfterCreate q msg)
          (Except.ok ⟨"op2", false⟩) (fun _ => ⟨"op2", false⟩)).2) :=
  upload_cleanup "s2" "/tmp/w2" _ _ _ rfl

/-- C9 counterexample: the upload endpoint does not normalize the store
identifier — a bare "mystore" is passed to the backend unchanged, not as
"fileSearchStores/mystore" (src/main.py lines 189-193), although the
delete-store normalization would prefix it. -/
theorem store_prefixing_cex :
    storeNameOf "mystore" = "fileSearchStores/mystore" ∧
    Ev.submitUpload "mystore" ∈
      (uploadFile "mystore" (StageResult.staged "/tmp/f")
        (Except.ok ⟨"op", true⟩) (fun _ => ⟨"op", true⟩)).2 ∧
    Ev.submitUpload "fileSearchStores/mystore" ∉
      (uploadFile "mystore" (StageResult.staged "/tmp/f")
        (Except.ok ⟨"op", true⟩) (fun _ => ⟨"op", true⟩)).2 := by
  decide

/-- C9 (amended): the delete-store and list-documents endpoints accept a store
identifier either bare or already prefixed with "fileSearchStores/" and
normalize a bare identifier by adding the prefix (the result always carries
the prefix); the upload endpoint passes the store name it received to the
backend unchanged, performing no normalization. -/
theorem store_prefixing_amended :
    (∀ storeId : String, startsWithPy storeId "fileSearchStores/" = false →
      storeNameOf storeId = "fileSearchStores/" ++ storeId) ∧
    (∀ storeId : String, startsWithPy storeId "fileSearchStores/" = true →
      storeNameOf storeId = storeId) ∧
    (∀ storeId : String, startsWithPy (storeNameOf storeId) "fileSearchStores/" = true) ∧
    (∀ (storeName : String) (stage : StageResult) (submit : Except String Operation)
        (fetch : Nat → Operation) (t : String),
      Ev.submitUpload t ∈ (uploadFile storeName stage submit fetch).2 → t = storeName) := by
  refine ⟨fun storeId h => by simp [storeNameOf, h],
    fun storeId h => by simp [storeNameOf, h], fun storeId => ?_, ?_⟩
  · unfold storeNameOf
    by_cases h : startsWithPy storeId "fileSearchStores/" = true
    · simp [h]
    · simp only [h, if_neg, Bool.not_eq_true] at *
      simp [h, startsWithPy, String.toList]
  · intro storeName stage submit fetch t ht
    cases stage with
    | failBeforeCreate e => simp [uploadFile] at ht
    | failAfterCreate q msg => simp [uploadFile] at ht
    | staged p =>
      cases submit with
      | error e =>
        simp [uploadFile] at ht
        exact ht
      | ok op0 =>
        by_cases hd : (pollLoopAux fetch op0 0 60).1.done
        · simp [uploadFile, hd] at ht
          rcases ht with ht | ht
          · exact ht
          · exact absurd (pollLoopAux_events fetch 60 0 op0 _ ht) (by simp)
        · simp [uploadFile, hd] at ht
          rcases ht with ht | ht
          · exact ht
          · exact absurd (pollLoopAux_events fetch 60 0 op0 _ ht) (by simp)

/-- Witness for C9 (amended): concrete bare and prefixed identifiers, and a
concrete upload whose submission event carries exactly the form-field store
name. -/
theorem store_prefixing_amended_witness :
    storeNameOf "abc" = "fileSearchStores/" ++ "abc" ∧
    storeNameOf "fileSearchStores/abc" = "fileSearchStores/abc" ∧
    startsWithPy (storeNameOf "abc") "fileSearchStores/" = true ∧
    ("s0" : String) = "s0" :=
  ⟨store_prefixing_amended.1 "abc" (by decide),
   store_prefixing_amended.2.1 "fileSearchStores/abc" (by decide),
   store_prefixing_amended.2.2.1 "abc",
   store_prefixing_amended.2.2.2 "s0" (StageResult.staged "/tmp/f")
     (Except.ok ⟨"op", true⟩) (fun _ => ⟨"op", true⟩) "s0" (by decide)⟩

/-- Emptiness of an appended list is the conjunction of both parts' emptiness. -/
theorem isEmpty_append_eq {α : Type} (a b : List α) :
    (a ++ b).isEmpty = (a.isEmpty && b.isEmpty) := by
  cases a <;> simp

/-- Chunk dict is empty exactly when neither raw source field is populated. -/
theorem chunkData_isEmpty (c : RawChunk) :
    (chunkData c).isEmpty = !chunkPopulated c := by
  obtain ⟨w, rc⟩ := c
  cases w <;> cases rc <;> simp [chunkData, chunkPopulated]

/-- Support dict is empty exactly when none of the three raw fields is
populated (list fields counting only when present and non-empty). -/
theorem supportData_isEmpty (s : RawSupport) :
    (supportData s).isEmpty = !supportPopulated s := by
  obtain ⟨seg, gci, cs⟩ := s
  cases seg <;> cases gci <;> cases cs <;>
    simp [supportData, supportPopulated, isEmpty_append_eq] <;>
    split_ifs <;> simp_all

/-- Normalized chunk sequence equals the populated raw chunks, in input order,
each rendered by `chunkData`. -/
theorem normChunksOut_eq (gm : RawGroundingMetadata) (cl : List RawChunk)
    (h : gm.grounding_chunks = some cl) :
    normChunksOut gm =
      (cl.filter chunkPopulated).map (fun c => PyVal.dict (chunkData c)) := by
  cases cl with
  | nil => simp [normChunksOut, h]
  | cons c cs =>
    simp only [normChunksOut, h, List.isEmpty_cons, Bool.false_eq_true, if_false]
    rw [List.filter_map, List.map_map]
    rw [List.filter_congr (fun x _ => by
      simp [Function.comp, chunkData_isEmpty] : ∀ x ∈ c :: cs,
        ((fun d => !d.isEmpty) ∘ chunkData) x = chunkPopulated x)]
    rfl

/-- Normalized supports field, when the raw field is present and non-empty,
holds exactly the populated raw supports in input order. -/
theorem normSupportsField_eq (gm : RawGroundingMetadata) (sl : List RawSupport)
    (h : gm.grounding_supports = some sl) (hne : sl ≠ []) :
    normSupportsField gm = [("grounding_supports",
      PyVal.list ((sl.filter supportPopulated).map
        (fun s => PyVal.dict (supportData s))))] := by
  cases sl with
  | nil => exact absurd rfl hne
  | cons s ss =>
    simp only [normSupportsField, h, List.isEmpty_cons, Bool.false_eq_true, if_false]
    rw [List.filter_map, List.map_map]
    rw [List.filter_congr (fun x _ => by
      simp [Function.comp, supportData_isEmpty] : ∀ x ∈ s :: ss,
        ((fun d => !d.isEmpty) ∘ supportData) x = supportPopulated x)]
    rfl

/-- C6: the normalizer returns absent when the candidate has no
grounding-metadata container; otherwise the output is a dict whose chunk
sequence keeps exactly the populated raw chunks in input order and whose
supports field, when emitted, keeps exactly the populated raw supports in
input order; and neither output sequence ever contains an empty-object
entry. -/
theorem normalize_defensive :
    (∀ cand : RawCandidate, cand.grounding_metadata = none →
      normalizeCandidate cand = none) ∧
    (∀ (cand : RawCandidate) (gm : RawGroundingMetadata),
      cand.grounding_metadata = some gm →
      normalizeCandidate cand = some (PyVal.dict
        (("grounding_chunks", PyVal.list (normChunksOut gm)) :: normSupportsField gm))) ∧
    (∀ (gm : RawGroundingMetadata) (cl : List RawChunk), gm.grounding_chunks = some cl →
      normChunksOut gm =
        (cl.filter chunkPopulated).map (fun c => PyVal.dict (chunkData c))) ∧
    (∀ (gm : RawGroundingMetadata) (sl : List RawSupport),
      gm.grounding_supports = some sl → sl ≠ [] →
      normSupportsField gm = [("grounding_supports",
        PyVal.list ((sl.filter supportPopulated).map
          (fun s => PyVal.dict (supportData s))))]) ∧
    (∀ (gm : RawGroundingMetadata) (v : PyVal), v ∈ normChunksOut gm →
      ∃ fs, v = PyVal.dict fs ∧ fs ≠ []) ∧
    (∀ (gm : RawGroundingMetadata) (l : List PyVal) (v : PyVal),
      normSupportsField gm = [("grounding_supports", PyVal.list l)] → v ∈ l →
      ∃ fs, v = PyVal.dict fs ∧ fs ≠ []) := by
  refine ⟨fun cand h => by simp [normalizeCandidate, h],
    fun cand gm h => by simp [normalizeCandidate, h],
    normChunksOut_eq, normSupportsField_eq, ?_, ?_⟩
  · intro gm v hv
    rcases hgm : gm.grounding_chunks with _ | cl
    · simp [normChunksOut, hgm] at hv
    · cases cl with
      | nil => simp [normChunksOut, hgm] at hv
      | cons c cs =>
        simp only [normChunksOut, hgm, List.isEmpty_cons, Bool.false_eq_true, if_false,
          List.mem_map, List.mem_filter] at hv
        obtain ⟨d, ⟨_, hne⟩, rfl⟩ := hv
        refine ⟨d, rfl, ?_⟩
        cases d with
        | nil => simp at hne
        | cons x xs => simp
  · intro gm l v heq hv
    rcases hgm : gm.grounding_supports with _ | sl
    · simp [normSupportsField, hgm] at heq
    · cases sl with
      | nil => simp [normSupportsField, hgm] at heq
      | cons s ss =>
        simp only [normSupportsField, hgm, List.isEmpty_cons, Bool.false_eq_true, if_false,
          List.cons.injEq, Prod.mk.injEq, PyVal.list.injEq, true_and, and_true] at heq
        rw [← heq] at hv
        simp only [List.mem_map, List.mem_filter] at hv
        obtain ⟨d, ⟨_, hne⟩, rfl⟩ := hv
        refine ⟨d, rfl, ?_⟩
        cases d with
        | nil => simp at hne
        | cons x xs => simp

/-- Raw chunk list used by the C6 witness: one populated chunk (a web source)
followed by one fully unpopulated chunk. -/
def chunksW : List RawChunk :=
  [⟨some ⟨some "http://u", none⟩, none⟩, ⟨none, none⟩]

/-- Raw support list used by the C6 witness: one unpopulated support (its only
present field an empty index list) followed by one populated support. -/
def supportsW : List RawSupport :=
  [⟨none, some [], none⟩, ⟨none, some [0], none⟩]

/-- Raw grounding container used by the C6 witness. -/
def gmW : RawGroundingMetadata := ⟨some chunksW, some supportsW⟩

/-- Witness for C6: evaluation of every conjunct at concrete raw data. -/
theorem normalize_defensive_witness :
    normalizeCandidate ⟨none⟩ = none ∧
    normalizeCandidate ⟨some gmW⟩ = some (PyVal.dict
      (("grounding_chunks", PyVal.list (normChunksOut gmW)) :: normSupportsField gmW)) ∧
    normChunksOut gmW =
      (chunksW.filter chunkPopulated).map (fun c => PyVal.dict (chunkData c)) ∧
    normSupportsField gmW = [("grounding_supports",
      PyVal.list ((supportsW.filter supportPopulated).map
        (fun s => PyVal.dict (supportData s))))] ∧
    (∃ fs, (PyVal.dict (chunkData ⟨some ⟨some "http://u", none⟩, none⟩) : PyVal) =
      PyVal.dict fs ∧ fs ≠ []) ∧
    (∃ fs, (PyVal.dict (supportData ⟨none, some [0], none⟩) : PyVal) =
      PyVal.dict fs ∧ fs ≠ []) := by
  refine ⟨normalize_defensive.1 ⟨none⟩ rfl, normalize_defensive.2.1 ⟨some gmW⟩ gmW rfl,
    normalize_defensive.2.2.1 gmW chunksW rfl,
    normalize_defensive.2.2.2.1 gmW supportsW rfl (by simp [supportsW]),
    normalize_defensive.2.2.2.2.1 gmW _ ?_,
    normalize_defensive.2.2.2.2.2 gmW
      [PyVal.dict (supportData ⟨none, some [0], none⟩)] _ ?_ ?_⟩
  · show _ ∈ normChunksOut gmW
    have h : normChunksOut gmW =
        [PyVal.dict (chunkData ⟨some ⟨some "http://u", none⟩, none⟩)] := rfl
    rw [h]
    exact List.mem_singleton_self _
  · rfl
  · exact List.mem_singleton_self _

/-- Raw candidate of the C7 round-trip: a single chunk whose only populated
field is `retrieved_context.text = "Paris is the capital"`. -/
def candParis : RawCandidate :=
  ⟨some ⟨some [⟨none, some ⟨none, none, some "Paris is the capital"⟩⟩], none⟩⟩

/-- C7 counterexample: the claimed output omits the absent `uri` and `title`
sub-fields of `retrieved_context`, but the code emits those keys with null
values (src/main.py lines 280-284 bind every sub-key, using `None` for absent
values), so the normalizer's output differs from the claimed one. -/
theorem normalize_roundtrip_cex :
    normalizeCandidate candParis ≠ some (PyVal.dict
      [("grounding_chunks", PyVal.list
        [PyVal.dict [("retrieved_context", PyVal.dict
          [("text", PyVal.str "Paris is the capital")])]])]) := by
  intro h
  simp [candParis, normalizeCandidate, normChunksOut, normSupportsField, chunkData, optStr] at h

/-- C7 (amended): for the Paris candidate the normalizer yields one chunk
`{retrieved_context: {uri: null, title: null, text: "Paris is the capital"}}` —
the chunk-level `web` field is omitted, but the absent sub-fields inside
`retrieved_context` are emitted as null-valued keys rather than omitted. -/
theorem normalize_roundtrip :
    normalizeCandidate candParis = some (PyVal.dict
      [("grounding_chunks", PyVal.list
        [PyVal.dict [("retrieved_context", PyVal.dict
          [("uri", PyVal.null), ("title", PyVal.null),
           ("text", PyVal.str "Paris is the capital")])]])]) := rfl

/-- C8: the `grounding_supports` key appears in the normalized output exactly
when the raw container's `grounding_supports` attribute is present and
non-empty, independently of whether the normalized sequence ends up empty
after unusable entries are dropped. -/
theorem supports_field_iff (cand : RawCandidate) (gm : RawGroundingMetadata)
    (h : cand.grounding_metadata = some gm) :
    ("grounding_supports" ∈ dictKeys (normalizeCandidate cand) ↔
      ∃ sl, gm.grounding_supports = some sl ∧ sl ≠ []) := by
  simp only [normalizeCandidate, h, dictKeys, List.map_cons]
  rcases hgm : gm.grounding_supports with _ | sl
  · simp [normSupportsField, hgm]
  · cases sl with
    | nil => simp [normSupportsField, hgm]
    | cons s ss => simp [normSupportsField, hgm]

/-- Raw container for the C8 witness: its `grounding_supports` attribute holds
a single unpopulated support, which the normalizer drops, leaving the emitted
field's sequence empty. -/
def gmSupportsOnly : RawGroundingMetadata := ⟨none, some [⟨none, some [], none⟩]⟩

/-- Witness for C8: the supports field is emitted (raw field present and
non-empty) even though every raw support entry is dropped. -/
theorem supports_field_iff_witness :
    (RawCandidate.mk (some gmSupportsOnly)).grounding_metadata = some gmSupportsOnly ∧
    ("grounding_supports" ∈ dictKeys (normalizeCandidate ⟨some gmSupportsOnly⟩) ↔
      ∃ sl, gmSupportsOnly.grounding_supports = some sl ∧ sl ≠ []) :=
  ⟨rfl, supports_field_iff ⟨some gmSupportsOnly⟩ gmSupportsOnly rfl⟩
